import Mathlib

/-!
Shallow embedding of `src/main.py` (GitHubCommitAnalyzer): commit extraction
from a repository log, and the four aggregation operations over the extracted
table (contributor distribution, commit trend, code churn, word cloud), plus
the clone/cache policy of `clone_repo`.

Machine integers do not overflow here (Python ints are unbounded), timestamps
are epoch seconds as natural numbers, and the pandas DataFrame holding the
commit table is modelled as a list of records together with its integer index
and the two derived columns that aggregation steps cache on it.
-/

namespace CommitAnalyzer

/-- One row of the extracted table, mirroring the dict built in
`extract_commit_data` (src/main.py lines 68-76). -/
structure CommitRecord where
  commit_hash : String
  author_name : String
  author_email : String
  commit_time : Nat
  commit_message : String
  insertions : Nat
  deletions : Nat
deriving DecidableEq

/-- A raw commit as yielded by `repo.iter_commits`: each field access may
raise (GitPython computes stats lazily), modelled as `Except` carrying the
exception text.  `hexsha` itself is total because the skip handler at line 79
reads it outside any protection. -/
structure RawCommit where
  hexsha : String
  author_name : Except String String
  author_email : Except String String
  committed_date : Except String Nat
  message : Except String String
  insertions : Except String Nat
  deletions : Except String Nat

/-- The in-memory DataFrame `self.commits_df`: its rows, its integer index
(pandas keeps an explicit index; `reset_index(drop=True)` renumbers it), and
the two derived columns that `analyze_commit_trend` (line 109) and
`analyze_code_churn` (line 129) assign onto the frame. -/
structure CommitsDF where
  rows : List CommitRecord
  index : List Nat
  commit_date : Option (List (Nat × Nat × Nat))
  commit_year : Option (List Nat)
deriving DecidableEq

/-- The bound `max_count=800` at src/main.py line 58. -/
def MAX_COUNT : Nat := 800

/-- Building the per-commit dict (lines 68-76): the first failing field
access aborts this record with that exception, in the evaluation order of
the Python dict literal. -/
def buildRecord (c : RawCommit) : Except String CommitRecord := do
  let name ← c.author_name
  let email ← c.author_email
  let t ← c.committed_date
  let msg ← c.message
  let ins ← c.insertions
  let dels ← c.deletions
  pure { commit_hash := c.hexsha.take 8
         author_name := name
         author_email := email
         commit_time := t
         commit_message := msg.trim
         insertions := ins
         deletions := dels }

/-- The diagnostic printed at line 79 when a commit is skipped: the first 8
characters of the hash and the exception text truncated to 50 characters. -/
def skipMessage (c : RawCommit) (e : String) : String :=
  "跳过异常提交" ++ c.hexsha.take 8 ++ "：" ++ e.take 50

/-- Generic insertion step: place `a` after every element `b` with
`le b a = true` (the comparison the sort keeps passing over). -/
def insertBy (le : α → α → Bool) (a : α) : List α → List α
  | [] => [a]
  | b :: bs => if le b a then b :: insertBy le a bs else a :: b :: bs

/-- Insertion sort with comparison `le`. -/
def sortBy (le : α → α → Bool) : List α → List α
  | [] => []
  | a :: as => insertBy le a (sortBy le as)

/-- The call `sort_values("commit_time")` at line 84: reorder rows ascending by
commit timestamp. -/
def sortByTime (rs : List CommitRecord) : List CommitRecord :=
  sortBy (fun b a => decide (b.commit_time ≤ a.commit_time)) rs

/-- The method `extract_commit_data` (lines 54-89) given the walked commit
log, restricted to the runs that produce a table: walk at most `MAX_COUNT`
commits, build a record per commit, skip (and log) every commit whose record
construction fails, then sort ascending by timestamp and renumber the index
densely from zero.  Returns the DataFrame together with the skip diagnostics
printed along the way.  Caveat: when no record at all survives the walk, the
real line 83 builds a column-less empty frame and line 84 then raises; that
error path is modelled by `extract_commit_data_run` below, which agrees with
this total form on every run that does produce a table
(`extract_run_agrees`). -/
def extract_commit_data (repoLog : List RawCommit) : CommitsDF × List String :=
  let commits := repoLog.take MAX_COUNT
  let records := commits.filterMap (fun c => (buildRecord c).toOption)
  let logs := commits.filterMap (fun c =>
    match buildRecord c with
    | Except.ok _ => none
    | Except.error e => some (skipMessage c e))
  let sorted := sortByTime records
  ({ rows := sorted
     index := List.range sorted.length
     commit_date := none
     commit_year := none }, logs)

/-- Lines 83-84 run on the surviving record list: pandas builds a frame
from the list and sorts it by the `commit_time` column.  An empty list gives
`pd.DataFrame([])`, a frame with no columns at all, so
`sort_values("commit_time")` raises `KeyError` — and these two lines sit
outside the per-commit `try`, so the exception escapes
`extract_commit_data`. -/
def sort_values_commit_time :
    List CommitRecord → Except String (List CommitRecord)
  | [] => Except.error "KeyError: commit_time"
  | r :: rs => Except.ok (sortByTime (r :: rs))

/-- The method `extract_commit_data` as it actually runs, error path
included: the same walk and skip policy as `extract_commit_data`, then
lines 83-84 through `sort_values_commit_time` — so a walk in which no
record survives (zero commits, or every record construction failing)
raises instead of producing a table. -/
def extract_commit_data_run (repoLog : List RawCommit) :
    Except String (CommitsDF × List String) :=
  let commits := repoLog.take MAX_COUNT
  let logs := commits.filterMap (fun c =>
    match buildRecord c with
    | Except.ok _ => none
    | Except.error e => some (skipMessage c e))
  match sort_values_commit_time
      (commits.filterMap fun c => (buildRecord c).toOption) with
  | Except.error e => Except.error e
  | Except.ok sorted =>
      Except.ok ({ rows := sorted
                   index := List.range sorted.length
                   commit_date := none
                   commit_year := none }, logs)

/-- How a run of the extraction stage fails: either the repository log
cannot be opened at all (`repo.iter_commits` raising at line 58,
unprotected), or an exception escapes `extract_commit_data` itself — the
line 84 `KeyError` when no record survives the walk. -/
inductive ExtractionError where
  | cannotOpenLog : String → ExtractionError
  | uncaught : String → ExtractionError
deriving DecidableEq

/-- The extraction pipeline from the log handle: opening the log may fail
(line 58), and the walk it does yield runs through the real error path of
`extract_commit_data_run`. -/
def openAndExtract (log : Except ExtractionError (List RawCommit)) :
    Except ExtractionError (CommitsDF × List String) :=
  match log with
  | Except.error e => Except.error e
  | Except.ok commits =>
      match extract_commit_data_run commits with
      | Except.error e => Except.error (ExtractionError.uncaught e)
      | Except.ok out => Except.ok out

/-! ### Calendar arithmetic

`datetime.fromtimestamp` and the pandas `.dt` accessors reduce, for the
claims at stake, to the civil calendar of an epoch-seconds timestamp.  The
standard days-to-civil-date conversion (proleptic Gregorian). -/

/-- Civil date `(year, month, day)` of a day count since 1970-01-01. -/
def civilFromDays (z0 : Nat) : Nat × Nat × Nat :=
  let z := z0 + 719468
  let era := z / 146097
  let doe := z % 146097
  let yoe := (doe - doe / 1460 + doe / 36524 - doe / 146096) / 365
  let y := yoe + era * 400
  let doy := doe - (365 * yoe + yoe / 4 - yoe / 100)
  let mp := (5 * doy + 2) / 153
  let d := doy - (153 * mp + 2) / 5 + 1
  let m := if mp < 10 then mp + 3 else mp - 9
  (if m ≤ 2 then y + 1 else y, m, d)

/-- Days since the epoch of an epoch-seconds timestamp. -/
def epochDays (t : Nat) : Nat := t / 86400

/-- The accessor `.dt.date` of a timestamp (line 109). -/
def dateOf (t : Nat) : Nat × Nat × Nat := civilFromDays (epochDays t)

/-- The accessor `.dt.year` of a timestamp (line 129). -/
def yearOf (t : Nat) : Nat := (civilFromDays (epochDays t)).1

/-- Month bucket of a timestamp for `freq="ME"` (month-end grouping):
consecutive integers, one per calendar month. -/
def monthIndex (t : Nat) : Nat :=
  let c := civilFromDays (epochDays t)
  c.1 * 12 + (c.2.1 - 1)

/-- Week bucket for `freq="W"` (weekly, weeks ending Sunday): epoch day 0
was a Thursday, so days `z` with equal `(z + 3) / 7` share a Monday-to-Sunday
week. -/
def weekIndex (t : Nat) : Nat := (epochDays t + 3) / 7

/-- Day bucket for `freq="D"`. -/
def dayIndex (t : Nat) : Nat := epochDays t

/-- The bucket a timestamp falls in for a given pandas frequency string. -/
def bucketOf (freq : String) (t : Nat) : Nat :=
  if freq = "ME" then monthIndex t
  else if freq = "W" then weekIndex t
  else dayIndex t

/-! ### Commit trend (`analyze_commit_trend`, lines 106-124) -/

/-- Earliest bucket among the rows (0 for an empty table). -/
def minBucket (rows : List CommitRecord) (freq : String) : Nat :=
  match rows with
  | [] => 0
  | r :: rs =>
    (rs.map fun x => bucketOf freq x.commit_time).foldl Nat.min
      (bucketOf freq r.commit_time)

/-- Latest bucket among the rows (0 for an empty table). -/
def maxBucket (rows : List CommitRecord) (freq : String) : Nat :=
  match rows with
  | [] => 0
  | r :: rs =>
    (rs.map fun x => bucketOf freq x.commit_time).foldl Nat.max
      (bucketOf freq r.commit_time)

/-- The grouping `groupby(pd.Grouper(key="commit_time", freq=freq)).size()` (line 111):
a time grouper bins over the full span from the earliest to the latest
timestamp, so every bucket in between appears, counting the rows that fall
in it — zero when none do.  Empty table gives an empty series. -/
def trendSeries (rows : List CommitRecord) (freq : String) : List (Nat × Nat) :=
  match rows with
  | [] => []
  | r :: rs =>
    let lo := minBucket (r :: rs) freq
    let hi := maxBucket (r :: rs) freq
    (List.range (hi - lo + 1)).map fun i =>
      (lo + i, (r :: rs).countP fun x => bucketOf freq x.commit_time == lo + i)

/-- The fixed label lookup at line 117: a Python dict subscript, raising
`KeyError` on any frequency outside the three supported ones. -/
def freq_label : String → Option String
  | "ME" => some "月"
  | "W" => some "周"
  | "D" => some "日"
  | _ => none

/-- An unsupported trend period (spec: ConfigurationError; in the code the
`KeyError` from the label lookup). -/
inductive ConfigError where
  | unsupportedFreq : String → ConfigError

/-- What a successful trend run computes: the counted series and the label
used in the chart title. -/
structure TrendResult where
  series : List (Nat × Nat)
  label : String

/-- The method `analyze_commit_trend` (lines 106-124).  Line 109 assigns the derived
`commit_date` column onto the frame before anything can fail.  The label
lookup at line 117 sits before `savefig` at line 123, so an unsupported
frequency raises with no chart file written; a supported one writes exactly
`data/commit_trend_<freq>.png`.  Returns (frame after the call, files
written, result-or-error). -/
def analyze_commit_trend (df : CommitsDF) (freq : String) :
    CommitsDF × List String × Except ConfigError TrendResult :=
  let df2 := { df with commit_date := some (df.rows.map fun r => dateOf r.commit_time) }
  match freq_label freq with
  | none => (df2, [], Except.error (ConfigError.unsupportedFreq freq))
  | some lab =>
      (df2, ["data/commit_trend_" ++ freq ++ ".png"],
        Except.ok { series := trendSeries df.rows freq, label := lab })

/-! ### Contributor distribution (`analyze_contributor_distribution`,
lines 91-104) -/

/-- The distinct values of a series in order of first appearance (the order
the pandas counting hash table retains). -/
def firstKeys (xs : List String) : List String :=
  xs.foldl (fun acc x => if x ∈ acc then acc else acc ++ [x]) []

/-- The call `Series.value_counts()`: count each distinct value, sorted descending by
count; ties keep their first-appearance order (the sort is stable over the
hash-table order). -/
def value_counts (xs : List String) : List (String × Nat) :=
  sortBy (fun b a => decide (a.2 < b.2))
    ((firstKeys xs).map fun k => (k, xs.count k))

/-- The method `analyze_contributor_distribution` (lines 91-104): `value_counts` of the
author-name column, kept to the top 10.  Reads the frame only. -/
def analyze_contributor_distribution (df : CommitsDF) :
    CommitsDF × List (String × Nat) :=
  (df, (value_counts (df.rows.map fun r => r.author_name)).take 10)

/-! ### Code churn (`analyze_code_churn`, lines 126-148) -/

/-- One row of the yearly churn table: summed insertions and deletions and
their signed difference (line 134). -/
structure ChurnRow where
  year : Nat
  insertions_sum : Nat
  deletions_sum : Nat
  net_change : Int
deriving DecidableEq

/-- Sum of insertions over the rows of one calendar year. -/
def yearInsertions (rows : List CommitRecord) (y : Nat) : Nat :=
  ((rows.filter fun r => yearOf r.commit_time == y).map fun r => r.insertions).sum

/-- Sum of deletions over the rows of one calendar year. -/
def yearDeletions (rows : List CommitRecord) (y : Nat) : Nat :=
  ((rows.filter fun r => yearOf r.commit_time == y).map fun r => r.deletions).sum

/-- The grouping `groupby("commit_year").agg(sum, sum)` plus the derived `net_change`
column (lines 130-134): one row per distinct year, years ascending (the
pandas groupby sorts its keys), sums per year, net change as a signed
integer. -/
def codeChurn (rows : List CommitRecord) : List ChurnRow :=
  (sortBy (fun b a => decide (b ≤ a))
      ((rows.map fun r => yearOf r.commit_time).dedup)).map fun y =>
    { year := y
      insertions_sum := yearInsertions rows y
      deletions_sum := yearDeletions rows y
      net_change := (yearInsertions rows y : Int) - (yearDeletions rows y : Int) }

/-- The method `analyze_code_churn` (lines 126-148): line 129 assigns the derived
`commit_year` column onto the frame, then the yearly aggregate is computed
and charted. -/
def analyze_code_churn (df : CommitsDF) : CommitsDF × List ChurnRow :=
  ({ df with commit_year := some (df.rows.map fun r => yearOf r.commit_time) },
    codeChurn df.rows)

/-! ### Word cloud (`generate_commit_message_wordcloud`, lines 150-175) -/

/-- The literal stop-word set of lines 155-157 (note the capitalised
entry for the first-person pronoun, kept verbatim). -/
def stop_words : List String :=
  ["the", "a", "an", "and", "or", "to", "in", "for", "of", "with", "on",
   "at", "by", "is", "are", "was", "were", "I", "we", "this", "that", "it",
   "fix", "fixed", "update", "add", "remove", "clean", "up"]

/-- Python `str.lower()` as the code applies it: the per-character ASCII lowering
(the stop-word list it is compared against is pure ASCII), written over the
string's character list so it evaluates by reduction. -/
def lowerString (s : String) : String := String.mk (s.data.map Char.toLower)

/-- The filter of line 158: keep a token iff its length is at least 2 and
its lowercase form is not a stop word. -/
def keepWord (w : String) : Bool :=
  decide (2 ≤ w.length) && !(stop_words.contains (lowerString w))

/-- The comprehension at line 158 over the tokenized message text. -/
def filtered_words (words : List String) : List String :=
  words.filter keepWord

/-- All messages joined with a space separator (line 153). -/
def joinedMessages (df : CommitsDF) : String :=
  String.intercalate " " (df.rows.map fun r => r.commit_message)

/-- The method `generate_commit_message_wordcloud` (lines 150-175): the tokenizer
(`jieba.lcut`, an external library) is passed in as the token stream it
produced from the joined messages; the function filters it and hands the
result to the renderer.  Reads the frame only. -/
def generate_commit_message_wordcloud (df : CommitsDF) (tokens : List String) :
    CommitsDF × List String :=
  (df, filtered_words tokens)

/-! ### Clone policy (`clone_repo`, lines 38-52) -/

/-- What resolution does: open the existing local copy, or fetch from a
(possibly token-carrying) address into the local path. -/
inductive CloneAction where
  | openLocal : String → CloneAction
  | cloneFrom : String → String → CloneAction
deriving DecidableEq

/-- Whether the action goes to the network. -/
def CloneAction.isFetch : CloneAction → Bool
  | CloneAction.openLocal _ => false
  | CloneAction.cloneFrom _ _ => true

/-- Line 45: the token is spliced into the address after the scheme. -/
def injectToken (url token : String) : String :=
  url.replace "https://" ("https://" ++ token ++ "@")

/-- The method `clone_repo` (lines 38-52), with the filesystem check
`os.path.exists(local_repo_path)` and the environment token (empty string
when unset, line 13) as inputs: an existing local copy is opened directly,
otherwise the history is fetched, through the token-carrying address exactly
when a token is configured. -/
def clone_repo (repoUrl localPath : String) (localExists : Bool)
    (token : String) : CloneAction :=
  if localExists then CloneAction.openLocal localPath
  else if token ≠ "" then
    CloneAction.cloneFrom (injectToken repoUrl token) localPath
  else CloneAction.cloneFrom repoUrl localPath

/-! ### Concrete fixtures used to evaluate the operations -/

/-- A commit record with the fields the aggregations read. -/
def sampleRecord (author : String) (t ins dels : Nat) (msg : String) :
    CommitRecord :=
  { commit_hash := "00000000"
    author_name := author
    author_email := author ++ "@example.com"
    commit_time := t
    commit_message := msg
    insertions := ins
    deletions := dels }

/-- A freshly extracted frame over the given rows: dense index, no derived
columns yet. -/
def mkDF (rs : List CommitRecord) : CommitsDF :=
  { rows := rs
    index := List.range rs.length
    commit_date := none
    commit_year := none }

/-- The empty freshly extracted frame. -/
def emptyDF : CommitsDF := mkDF []

/-- Eleven commits with author counts A:5, B:3, C:3, B appearing before C. -/
def dfABC : CommitsDF :=
  mkDF ((["A", "B", "C", "A", "B", "C", "A", "B", "C", "A", "A"].map
    fun a => sampleRecord a 0 0 0 "m"))

/-- Two commits of 2020: 2020-01-15 (10 insertions, 5 deletions) and
2020-03-15 (20 insertions, 5 deletions) — January and March with February
empty, and yearly sums 30, 10, net 20. -/
def dfJanMar : CommitsDF :=
  mkDF [sampleRecord "A" 1579046400 10 5 "first",
        sampleRecord "B" 1584230400 20 5 "second"]

/-- A raw commit whose every field access succeeds. -/
def goodRaw : RawCommit :=
  { hexsha := "aaaabbbbcccc"
    author_name := Except.ok "A"
    author_email := Except.ok "a@example.com"
    committed_date := Except.ok 100
    message := Except.ok " msg "
    insertions := Except.ok 1
    deletions := Except.ok 2 }

/-- A raw commit whose stats access raises, as for a commit whose diff
cannot be computed. -/
def badRaw : RawCommit :=
  { hexsha := "badc0ffee123"
    author_name := Except.ok "B"
    author_email := Except.ok "b@example.com"
    committed_date := Except.ok 200
    message := Except.ok "m"
    insertions := Except.error "KeyError: stats unavailable for this commit object here"
    deletions := Except.ok 4 }

/-! ### Lemmas about the generic insertion sort -/

theorem mem_insertBy (le : α → α → Bool) (a x : α) :
    ∀ l : List α, x ∈ insertBy le a l ↔ x = a ∨ x ∈ l
  | [] => by simp [insertBy]
  | b :: bs => by
    by_cases h : le b a = true
    · simp only [insertBy, if_pos h, List.mem_cons, mem_insertBy le a x bs]
      tauto
    · simp only [insertBy, if_neg h, List.mem_cons]

theorem length_insertBy (le : α → α → Bool) (a : α) :
    ∀ l : List α, (insertBy le a l).length = l.length + 1
  | [] => rfl
  | b :: bs => by
    by_cases h : le b a = true
    · simp only [insertBy, if_pos h, List.length_cons, length_insertBy le a bs]
    · simp only [insertBy, if_neg h, List.length_cons]

theorem mem_sortBy (le : α → α → Bool) (x : α) :
    ∀ l : List α, x ∈ sortBy le l ↔ x ∈ l
  | [] => Iff.rfl
  | a :: as => by
    simp only [sortBy, mem_insertBy, List.mem_cons, mem_sortBy le x as]

theorem length_sortBy (le : α → α → Bool) :
    ∀ l : List α, (sortBy le l).length = l.length
  | [] => rfl
  | a :: as => by
    simp only [sortBy, length_insertBy, List.length_cons, length_sortBy le as]

theorem pairwise_insertBy (le : α → α → Bool) (R : α → α → Prop)
    (h1 : ∀ a b, le a b = true → R a b)
    (h2 : ∀ a b, le a b = false → R b a)
    (ht : ∀ a b c, R a b → R b c → R a c) (a : α) :
    ∀ l : List α, l.Pairwise R → (insertBy le a l).Pairwise R
  | [], _ => List.pairwise_singleton R a
  | b :: bs, hp => by
    rw [List.pairwise_cons] at hp
    obtain ⟨hb, hbs⟩ := hp
    by_cases h : le b a = true
    · rw [insertBy, if_pos h, List.pairwise_cons]
      refine ⟨fun x hx => ?_, pairwise_insertBy le R h1 h2 ht a bs hbs⟩
      rcases (mem_insertBy le a x bs).1 hx with rfl | hx
      · exact h1 b x h
      · exact hb x hx
    · rw [insertBy, if_neg h, List.pairwise_cons]
      refine ⟨fun x hx => ?_, List.pairwise_cons.2 ⟨hb, hbs⟩⟩
      rcases List.mem_cons.1 hx with rfl | hx
      · exact h2 x a (Bool.eq_false_iff.2 h)
      · exact ht a b x (h2 b a (Bool.eq_false_iff.2 h)) (hb x hx)

theorem pairwise_sortBy (le : α → α → Bool) (R : α → α → Prop)
    (h1 : ∀ a b, le a b = true → R a b)
    (h2 : ∀ a b, le a b = false → R b a)
    (ht : ∀ a b c, R a b → R b c → R a c) :
    ∀ l : List α, (sortBy le l).Pairwise R
  | [] => List.Pairwise.nil
  | a :: as =>
    pairwise_insertBy le R h1 h2 ht a (sortBy le as)
      (pairwise_sortBy le R h1 h2 ht as)

/-! ### Lemmas about the skip policy's bookkeeping -/

theorem length_filterMap_toOption (f : α → Except ε β) :
    ∀ l : List α,
      (l.filterMap fun c => (f c).toOption).length
        = (l.filter fun c => (f c).isOk).length
  | [] => rfl
  | c :: cs => by
    have ih := length_filterMap_toOption f cs
    rw [List.filterMap_cons, List.filter_cons]
    cases hfc : f c with
    | ok b => simpa [Except.toOption, Except.isOk, Except.toBool] using ih
    | error e => simpa [Except.toOption, Except.isOk, Except.toBool] using ih

theorem length_filter_add_length_filter_not (p : α → Bool) :
    ∀ l : List α,
      (l.filter p).length + (l.filter fun a => !(p a)).length = l.length
  | [] => rfl
  | a :: as => by
    have ih := length_filter_add_length_filter_not p as
    cases h : p a <;> simp [List.filter_cons, h] <;> omega

/-! ### Lemmas about fold-computed bucket bounds -/

theorem foldl_min_le_init : ∀ (l : List Nat) (a : Nat), l.foldl Nat.min a ≤ a
  | [], a => Nat.le_refl a
  | b :: bs, a =>
    Nat.le_trans (foldl_min_le_init bs (Nat.min a b)) (Nat.min_le_left a b)

theorem foldl_min_le_mem :
    ∀ (l : List Nat) (a x : Nat), x ∈ l → l.foldl Nat.min a ≤ x
  | b :: bs, a, x, hx => by
    rcases List.mem_cons.1 hx with rfl | hx
    · exact Nat.le_trans (foldl_min_le_init bs (Nat.min a x))
        (Nat.min_le_right a x)
    · exact foldl_min_le_mem bs (Nat.min a b) x hx

theorem init_le_foldl_max : ∀ (l : List Nat) (a : Nat), a ≤ l.foldl Nat.max a
  | [], a => Nat.le_refl a
  | b :: bs, a =>
    Nat.le_trans (Nat.le_max_left a b) (init_le_foldl_max bs (Nat.max a b))

theorem mem_le_foldl_max :
    ∀ (l : List Nat) (a x : Nat), x ∈ l → x ≤ l.foldl Nat.max a
  | b :: bs, a, x, hx => by
    rcases List.mem_cons.1 hx with rfl | hx
    · exact Nat.le_trans (Nat.le_max_right a x)
        (init_le_foldl_max bs (Nat.max a x))
    · exact mem_le_foldl_max bs (Nat.max a b) x hx

theorem minBucket_le (rows : List CommitRecord) (freq : String) (x : CommitRecord)
    (hx : x ∈ rows) : minBucket rows freq ≤ bucketOf freq x.commit_time := by
  match rows with
  | [] => cases hx
  | r :: rs =>
    rcases List.mem_cons.1 hx with rfl | hx
    · exact foldl_min_le_init _ _
    · exact foldl_min_le_mem _ _ _ (List.mem_map_of_mem _ hx)

theorem le_maxBucket (rows : List CommitRecord) (freq : String) (x : CommitRecord)
    (hx : x ∈ rows) : bucketOf freq x.commit_time ≤ maxBucket rows freq := by
  match rows with
  | [] => cases hx
  | r :: rs =>
    rcases List.mem_cons.1 hx with rfl | hx
    · exact init_le_foldl_max _ _
    · exact mem_le_foldl_max _ _ _ (List.mem_map_of_mem _ hx)

/-- An unsupported frequency falls through the label lookup's match. -/
theorem freq_label_eq_none (freq : String)
    (h : freq ∉ (["ME", "W", "D"] : List String)) : freq_label freq = none := by
  simp only [List.mem_cons, List.not_mem_nil, or_false, not_or] at h
  obtain ⟨h1, h2, h3⟩ := h
  unfold freq_label
  split
  · exact absurd rfl h1
  · exact absurd rfl h2
  · exact absurd rfl h3
  · rfl

/-! ### The claims -/

/-- C10: `clone_repo` opens an existing local copy directly with no fetch;
when the local path is absent it fetches, through the token-injected address
exactly when a token is configured in the environment. -/
theorem clone_cache_policy (repoUrl localPath token : String) :
    clone_repo repoUrl localPath true token = CloneAction.openLocal localPath ∧
    (clone_repo repoUrl localPath true token).isFetch = false ∧
    clone_repo repoUrl localPath false token
      = CloneAction.cloneFrom
          (if token = "" then repoUrl else injectToken repoUrl token)
          localPath ∧
    (clone_repo repoUrl localPath false token).isFetch = true := by
  refine ⟨rfl, rfl, ?_, ?_⟩ <;>
    by_cases h : token = "" <;>
    simp [clone_repo, CloneAction.isFetch, h]

/-- C2 counterexample: `analyze_commit_trend` does not leave the frame with
exactly the columns extraction produced — it assigns the derived
`commit_date` column onto it (src/main.py line 109). -/
theorem trend_mutates_frame_counterexample :
    (analyze_commit_trend emptyDF "ME").1 ≠ emptyDF := by decide

/-- C2 amended: all four aggregations leave the rows (and the index)
unchanged; contributor distribution and the word cloud leave the whole frame
unchanged, while the trend and churn steps additionally cache the derived
`commit_date` / `commit_year` column, computed from the rows, touching
nothing else. -/
theorem aggregations_frame_effect (df : CommitsDF) (freq : String)
    (tokens : List String) :
    (analyze_contributor_distribution df).1 = df ∧
    (generate_commit_message_wordcloud df tokens).1 = df ∧
    (analyze_commit_trend df freq).1.rows = df.rows ∧
    (analyze_commit_trend df freq).1.index = df.index ∧
    (analyze_commit_trend df freq).1.commit_year = df.commit_year ∧
    (analyze_commit_trend df freq).1.commit_date
      = some (df.rows.map fun r => dateOf r.commit_time) ∧
    (analyze_code_churn df).1.rows = df.rows ∧
    (analyze_code_churn df).1.index = df.index ∧
    (analyze_code_churn df).1.commit_date = df.commit_date ∧
    (analyze_code_churn df).1.commit_year
      = some (df.rows.map fun r => yearOf r.commit_time) := by
  cases h : freq_label freq <;>
    simp [analyze_contributor_distribution, generate_commit_message_wordcloud,
      analyze_commit_trend, analyze_code_churn, h]

/-- C9: the word-cloud filter keeps exactly the tokens of length at least 2
whose lowercase form is not a stop word; "Fix" (stop word in another case)
and one-character tokens are dropped, and on the spec's example stream only
login/bug/readme remain. -/
theorem wordcloud_token_filter (df : CommitsDF) (tokens : List String)
    (w : String) :
    (w ∈ (generate_commit_message_wordcloud df tokens).2 ↔
      w ∈ tokens ∧ 2 ≤ w.length ∧ lowerString w ∉ stop_words) ∧
    (generate_commit_message_wordcloud emptyDF
        ["fix", "login", "bug", "update", "readme"]).2
      = ["login", "bug", "readme"] ∧
    filtered_words ["Fix"] = [] ∧
    filtered_words ["a"] = [] := by
  refine ⟨?_, by decide, by decide, by decide⟩
  show w ∈ filtered_words tokens ↔ _
  rw [filtered_words, List.mem_filter, keepWord]
  simp [List.elem_iff, and_assoc]

/-- C3: for a period outside the supported set the trend step fails with
the configuration error and writes no chart file at all; for each supported
period it succeeds, its label coming from the fixed lookup table and exactly
the one chart file being written. -/
theorem trend_period_validation (df : CommitsDF) (freq : String) :
    (freq ∉ (["ME", "W", "D"] : List String) →
      (analyze_commit_trend df freq).2.2
          = Except.error (ConfigError.unsupportedFreq freq) ∧
      (analyze_commit_trend df freq).2.1 = []) ∧
    (freq ∈ (["ME", "W", "D"] : List String) →
      ∃ out, (analyze_commit_trend df freq).2.2 = Except.ok out ∧
        freq_label freq = some out.label ∧
        (analyze_commit_trend df freq).2.1
          = ["data/commit_trend_" ++ freq ++ ".png"]) ∧
    (∀ out, (analyze_commit_trend df "ME").2.2 = Except.ok out →
      out.label = "月") ∧
    (∀ out, (analyze_commit_trend df "W").2.2 = Except.ok out →
      out.label = "周") ∧
    (∀ out, (analyze_commit_trend df "D").2.2 = Except.ok out →
      out.label = "日") := by
  refine ⟨fun h => ?_, fun h => ?_, ?_, ?_, ?_⟩
  · constructor <;> simp [analyze_commit_trend, freq_label_eq_none freq h]
  · simp only [List.mem_cons, List.not_mem_nil, or_false] at h
    rcases h with rfl | rfl | rfl <;>
      exact ⟨_, rfl, rfl, rfl⟩
  all_goals intro out hout
  all_goals simp [analyze_commit_trend, freq_label] at hout
  all_goals rw [← hout]

/-- C3 witness: at the unsupported period "Q" the trend step fails with the
configuration error and writes nothing; at "ME" it succeeds with label
taken from the lookup table. -/
theorem trend_period_validation_witness :
    ((analyze_commit_trend emptyDF "Q").2.2
        = Except.error (ConfigError.unsupportedFreq "Q") ∧
      (analyze_commit_trend emptyDF "Q").2.1 = []) ∧
    (∃ out, (analyze_commit_trend emptyDF "ME").2.2 = Except.ok out ∧
      freq_label "ME" = some out.label ∧
      (analyze_commit_trend emptyDF "ME").2.1
        = ["data/commit_trend_" ++ "ME" ++ ".png"]) :=
  ⟨(trend_period_validation emptyDF "Q").1 (by decide),
    (trend_period_validation emptyDF "ME").2.1 (by simp)⟩

/-- On every walk where at least one record survives — every run that
produces a table at all — the error-path model agrees with the total
`extract_commit_data` exactly. -/
theorem extract_run_agrees (repoLog : List RawCommit)
    (h : (repoLog.take MAX_COUNT).filterMap
        (fun c => (buildRecord c).toOption) ≠ []) :
    extract_commit_data_run repoLog
      = Except.ok (extract_commit_data repoLog) := by
  obtain ⟨r, rs, hrw⟩ := List.exists_cons_of_ne_nil h
  simp only [extract_commit_data_run, extract_commit_data]
  rw [hrw]
  rfl

/-- C1: code bug — the claim's no-fail guarantee is violated by the
program.  On a walk the log does yield but in which every commit's record
construction fails (here a single commit with unreadable stats), and
likewise on a yielded walk of zero commits, no record survives: line 83
builds a column-less empty frame and line 84's
`sort_values("commit_time")` raises `KeyError`, so extraction produces no
table even though the log was opened. -/
theorem extraction_raises_on_all_skipped_walk :
    (∀ c ∈ [badRaw], (buildRecord c).isOk = false) ∧
    openAndExtract (Except.ok [badRaw])
      = Except.error (ExtractionError.uncaught "KeyError: commit_time") ∧
    openAndExtract (Except.ok ([] : List RawCommit))
      = Except.error (ExtractionError.uncaught "KeyError: commit_time") ∧
    (∀ e, openAndExtract (Except.error e) = Except.error e) := by
  refine ⟨?_, rfl, rfl, fun e => rfl⟩
  intro c hc
  rw [List.mem_singleton.1 hc]
  rfl

/-- C5: a commit whose record construction fails is absent from the table
and leaves a truncated diagnostic in the log, the walk continuing: the row
count equals the number of buildable walked commits (one fewer per dropped
commit), and every row comes from a successfully built commit — no
placeholder rows. -/
theorem extraction_skips_bad_commits (repoLog : List RawCommit) :
    ((extract_commit_data repoLog).1.rows.length
        = ((repoLog.take MAX_COUNT).filter fun c => (buildRecord c).isOk).length) ∧
    ((extract_commit_data repoLog).1.rows.length
        + ((repoLog.take MAX_COUNT).filter
            fun c => !(buildRecord c).isOk).length
        = (repoLog.take MAX_COUNT).length) ∧
    (∀ c ∈ repoLog.take MAX_COUNT, ∀ e, buildRecord c = Except.error e →
        skipMessage c e ∈ (extract_commit_data repoLog).2) ∧
    (∀ r ∈ (extract_commit_data repoLog).1.rows,
        ∃ c, c ∈ repoLog.take MAX_COUNT ∧ buildRecord c = Except.ok r) := by
  have h1 : (extract_commit_data repoLog).1.rows
      = sortByTime ((repoLog.take MAX_COUNT).filterMap
          fun c => (buildRecord c).toOption) := rfl
  have h2 : (extract_commit_data repoLog).2
      = (repoLog.take MAX_COUNT).filterMap (fun c =>
          match buildRecord c with
          | Except.ok _ => none
          | Except.error e => some (skipMessage c e)) := rfl
  refine ⟨?_, ?_, ?_, ?_⟩
  · rw [h1, sortByTime, length_sortBy, length_filterMap_toOption]
  · rw [h1, sortByTime, length_sortBy, length_filterMap_toOption]
    exact length_filter_add_length_filter_not _ _
  · intro c hc e he
    rw [h2]
    exact List.mem_filterMap.2 ⟨c, hc, by rw [he]⟩
  · intro r hr
    rw [h1, sortByTime] at hr
    obtain ⟨c, hc, hco⟩ := List.mem_filterMap.1 ((mem_sortBy _ _ _).1 hr)
    refine ⟨c, hc, ?_⟩
    cases hbc : buildRecord c with
    | ok b =>
        rw [hbc] at hco
        simp only [Except.toOption, Option.some.injEq] at hco
        rw [hco]
    | error e => rw [hbc] at hco; simp [Except.toOption] at hco

/-- C5 witness: on a two-commit walk whose second commit has unreadable
stats, the table has exactly one row and the log holds the truncated
diagnostic for the bad commit. -/
theorem extraction_skips_bad_commits_witness :
    (extract_commit_data [goodRaw, badRaw]).1.rows.length
        = (([goodRaw, badRaw].take MAX_COUNT).filter
            fun c => (buildRecord c).isOk).length ∧
    skipMessage badRaw "KeyError: stats unavailable for this commit object here"
      ∈ (extract_commit_data [goodRaw, badRaw]).2 :=
  ⟨(extraction_skips_bad_commits [goodRaw, badRaw]).1,
    (extraction_skips_bad_commits [goodRaw, badRaw]).2.2.1 badRaw
      (show badRaw ∈ [goodRaw, badRaw] from
        List.mem_cons_of_mem _ (List.mem_cons_self _ _))
      "KeyError: stats unavailable for this commit object here" rfl⟩

/-- C6: the extracted table never exceeds the configured walk bound of 800
rows, its rows are non-decreasing in commit timestamp, and its index is the
dense renumbering from zero. -/
theorem extraction_table_invariants (repoLog : List RawCommit) :
    (extract_commit_data repoLog).1.rows.length ≤ MAX_COUNT ∧
    List.Pairwise (fun a b => a.commit_time ≤ b.commit_time)
      (extract_commit_data repoLog).1.rows ∧
    (extract_commit_data repoLog).1.index
      = List.range (extract_commit_data repoLog).1.rows.length := by
  have h1 : (extract_commit_data repoLog).1.rows
      = sortByTime ((repoLog.take MAX_COUNT).filterMap
          fun c => (buildRecord c).toOption) := rfl
  refine ⟨?_, ?_, rfl⟩
  · rw [h1, sortByTime, length_sortBy]
    exact Nat.le_trans (List.length_filterMap_le _ _)
      (Nat.le_trans (Nat.le_of_eq (List.length_take _ _))
        (Nat.min_le_left _ _))
  · rw [h1, sortByTime]
    exact pairwise_sortBy
      (fun (b a : CommitRecord) => decide (b.commit_time ≤ a.commit_time))
      (fun (a b : CommitRecord) => a.commit_time ≤ b.commit_time)
      (fun a b h => of_decide_eq_true h)
      (fun a b h => Nat.le_of_not_le (of_decide_eq_false h))
      (fun a b c hab hbc => Nat.le_trans hab hbc) _

/-- C4: the contributor ranking counts rows per author name, is descending
in count, keeps at most the top 10, each listed count being that author's
row count; on counts A:5, B:3, C:3 with B appearing first it ranks A then B
then C. -/
theorem contributor_top10_ranking (df : CommitsDF) :
    (analyze_contributor_distribution df).2.length ≤ 10 ∧
    List.Pairwise (fun p q => q.2 ≤ p.2)
      (analyze_contributor_distribution df).2 ∧
    (∀ p ∈ (analyze_contributor_distribution df).2,
      p.2 = (df.rows.map fun r => r.author_name).count p.1) ∧
    (analyze_contributor_distribution dfABC).2
      = [("A", 5), ("B", 3), ("C", 3)] := by
  refine ⟨List.length_take_le _ _, ?_, ?_, by decide⟩
  · show List.Pairwise _ ((value_counts _).take 10)
    refine List.Pairwise.sublist (List.take_sublist _ _) ?_
    exact pairwise_sortBy
      (fun (b a : String × Nat) => decide (a.2 < b.2))
      (fun (p q : String × Nat) => q.2 ≤ p.2)
      (fun a b h => Nat.le_of_lt (of_decide_eq_true h))
      (fun a b h => Nat.le_of_not_lt (of_decide_eq_false h))
      (fun a b c hab hbc => Nat.le_trans hbc hab) _
  · intro p hp
    have hp2 := (mem_sortBy _ _ _).1 (List.mem_of_mem_take hp)
    obtain ⟨k, _, hkp⟩ := List.mem_map.1 hp2
    rw [← hkp]

/-- C8: the churn aggregate has one row per calendar year present in the
table, years ascending, whose sums are that year's total insertions and
deletions and whose net change is their signed difference; on one year with
insertions 10, 20 and deletions 5, 5 it yields 30, 10, net 20. -/
theorem code_churn_by_year (df : CommitsDF) :
    List.Pairwise (fun a b => a.year ≤ b.year) (analyze_code_churn df).2 ∧
    (∀ row ∈ (analyze_code_churn df).2,
      row.insertions_sum = yearInsertions df.rows row.year ∧
      row.deletions_sum = yearDeletions df.rows row.year ∧
      row.net_change
        = (row.insertions_sum : Int) - (row.deletions_sum : Int) ∧
      row.year ∈ df.rows.map fun r => yearOf r.commit_time) ∧
    (∀ y ∈ df.rows.map fun r => yearOf r.commit_time,
      ∃ row ∈ (analyze_code_churn df).2, row.year = y) ∧
    (analyze_code_churn dfJanMar).2
      = [{ year := 2020, insertions_sum := 30, deletions_sum := 10,
           net_change := 20 }] := by
  refine ⟨?_, ?_, ?_, by decide⟩
  · show List.Pairwise _ ((sortBy _ _).map _)
    rw [List.pairwise_map]
    exact pairwise_sortBy
      (fun (b a : Nat) => decide (b ≤ a)) (fun (a b : Nat) => a ≤ b)
      (fun a b h => of_decide_eq_true h)
      (fun a b h => Nat.le_of_not_le (of_decide_eq_false h))
      (fun a b c hab hbc => Nat.le_trans hab hbc) _
  · intro row hrow
    obtain ⟨y, hy, hyr⟩ := List.mem_map.1 hrow
    have hy2 := (mem_sortBy _ _ _).1 hy
    rw [← hyr]
    exact ⟨rfl, rfl, rfl, List.mem_dedup.1 hy2⟩
  · intro y hy
    refine ⟨_, List.mem_map_of_mem _ ((mem_sortBy _ _ _).2
      (List.mem_dedup.2 hy)), rfl⟩

/-- C7: for a non-empty table and a supported period, the trend series is
dense over the table's span: every bucket from the earliest to the latest
appears, paired with the number of commits falling in it — zero, rather than
absence, when no commit does. -/
theorem trend_series_dense (df : CommitsDF) (freq : String) (b : Nat)
    (hne : df.rows ≠ []) (hfreq : freq ∈ (["ME", "W", "D"] : List String))
    (hlo : minBucket df.rows freq ≤ b) (hhi : b ≤ maxBucket df.rows freq) :
    ∃ out, (analyze_commit_trend df freq).2.2 = Except.ok out ∧
      out.series = trendSeries df.rows freq ∧
      (b, df.rows.countP fun x => bucketOf freq x.commit_time == b)
        ∈ out.series := by
  have hlab : ∃ lab, freq_label freq = some lab := by
    simp only [List.mem_cons, List.not_mem_nil, or_false] at hfreq
    rcases hfreq with rfl | rfl | rfl
    · exact ⟨"月", rfl⟩
    · exact ⟨"周", rfl⟩
    · exact ⟨"日", rfl⟩
  obtain ⟨lab, hlab⟩ := hlab
  refine ⟨{ series := trendSeries df.rows freq, label := lab },
    by simp [analyze_commit_trend, hlab], rfl, ?_⟩
  obtain ⟨r, rs, hrw⟩ := List.exists_cons_of_ne_nil hne
  rw [hrw] at hlo hhi ⊢
  rw [trendSeries]
  refine List.mem_map.2
    ⟨b - minBucket (r :: rs) freq, List.mem_range.2 (by omega), ?_⟩
  have hb : minBucket (r :: rs) freq + (b - minBucket (r :: rs) freq) = b := by
    omega
  simp only [hb]

/-- C7 witness: with commits only in January and March 2020 and month
granularity, the February 2020 bucket (month index 24241) appears in the
series with count zero. -/
theorem trend_series_dense_witness :
    ∃ out, (analyze_commit_trend dfJanMar "ME").2.2 = Except.ok out ∧
      ((24241 : Nat), (0 : Nat)) ∈ out.series := by
  obtain ⟨out, h1, _, h3⟩ :=
    trend_series_dense dfJanMar "ME" 24241 (by decide) (by decide)
      (by decide) (by decide)
  refine ⟨out, h1, ?_⟩
  have hc : (dfJanMar.rows.countP
      fun x => bucketOf "ME" x.commit_time == 24241) = 0 := by decide
  rw [hc] at h3
  exact h3

end CommitAnalyzer

